import Mathlib

/-!
# Verification of the Rain Flow pipeline (src/rain_flow.py)

A shallow embedding of the weather pipeline: JSON values model the
Python data the classifier consumes, Python operations that can raise
are modelled in the `Except String` monad, and the Prefect wiring
(parameter default, retries, branch) is modelled as explicit pure
functions.
-/

/-- A JSON-like value, as produced by parsing the weather response
(`r.json()` in `pull_forecast`).  Numbers are modelled as rationals;
objects are association lists of string keys. -/
inductive Json where
  | null : Json
  | bool : Bool → Json
  | num : ℚ → Json
  | str : String → Json
  | arr : List Json → Json
  | obj : List (String × Json) → Json
deriving Repr

/-- Lookup of a key in a JSON object field list (Python dict lookup,
first binding wins; a well-formed dict has no duplicate keys). -/
def dictLookup (fields : List (String × Json)) (k : String) : Option Json :=
  (fields.find? (fun p => p.1 == k)).map Prod.snd

/-- Python subscript `v[k]` with a string key: succeeds only on a dict
holding the key; raises KeyError on a dict without the key and
TypeError on every non-dict value. -/
def pySubscript (v : Json) (k : String) : Except String Json :=
  match v with
  | Json.obj fields =>
      match dictLookup fields k with
      | some j => Except.ok j
      | none => Except.error "KeyError"
  | _ => Except.error "TypeError: value is not subscriptable by a string"

/-- Python `v.get(k, dflt)`: the `get` attribute exists only on dicts,
so every non-dict value raises AttributeError. -/
def pyDictGet (v : Json) (k : String) (dflt : Json) : Except String Json :=
  match v with
  | Json.obj fields => Except.ok ((dictLookup fields k).getD dflt)
  | _ => Except.error "AttributeError: value has no attribute get"

/-- Python `s >= 1` as a boolean: defined for numbers and booleans
(Python booleans are integers), a TypeError otherwise. -/
def pyGeOne (v : Json) : Except String Bool :=
  match v with
  | Json.num q => Except.ok (decide (1 ≤ q))
  | Json.bool b => Except.ok b
  | _ => Except.error "TypeError: unsupported comparison with int"

/-- Whether a character list starts with the given pattern. -/
def charsStartWith : List Char → List Char → Bool
  | [], _ => true
  | _ :: _, [] => false
  | p :: ps, x :: xs => p == x && charsStartWith ps xs

/-- Whether a character list has the pattern as a contiguous
subsequence (Python substring membership `pat in s`). -/
def charsContain (pat : List Char) : List Char → Bool
  | [] => charsStartWith pat []
  | x :: xs => charsStartWith pat (x :: xs) || charsContain pat xs

/-- Whether a JSON value is the string literal needed by Python
equality `x == "rain"` (used for list membership). -/
def isStrRain (v : Json) : Bool :=
  match v with
  | Json.str s => s == "rain"
  | _ => false

/-- Python membership test `"rain" in v`: key test on a dict, element
test on a list, substring test on a string, TypeError otherwise. -/
def pyHasRain (v : Json) : Except String Bool :=
  match v with
  | Json.obj fields => Except.ok (fields.any (fun p => p.1 == "rain"))
  | Json.arr items => Except.ok (items.any isStrRain)
  | Json.str s => Except.ok (charsContain "rain".toList s.toList)
  | _ => Except.error "TypeError: argument is not iterable"

/-- Python iteration `for x in v`: a list yields its items, a string
its one-character substrings, a dict its keys; other values raise
TypeError. -/
def pyIter (v : Json) : Except String (List Json) :=
  match v with
  | Json.arr items => Except.ok items
  | Json.str s => Except.ok (s.toList.map (fun c => Json.str (String.mk [c])))
  | Json.obj fields => Except.ok (fields.map (fun p => Json.str p.1))
  | _ => Except.error "TypeError: value is not iterable"

/-- The list comprehension of `is_raining_this_week`:
`[forecast["rain"].get("3h", 0) for forecast in entries if "rain" in forecast]`.
Evaluated left to right; the first raising element aborts the whole
comprehension. -/
def collectRain : List Json → Except String (List Json)
  | [] => Except.ok []
  | forecast :: rest => do
      let hasRain ← pyHasRain forecast
      if hasRain then
        let r ← pySubscript forecast "rain"
        let v ← pyDictGet r "3h" (Json.num 0)
        let tail ← collectRain rest
        Except.ok (v :: tail)
      else
        collectRain rest

/-- The body of `is_raining_this_week` applied to the entry sequence:
collect the precipitation values, compare each with 1, count the
successes and compare the count with 1. -/
def classifyEntries (entries : List Json) : Except String Bool := do
  let rain ← collectRain entries
  let flags ← rain.mapM pyGeOne
  Except.ok (decide (1 ≤ flags.countP (fun b => b)))

/-- `is_raining_this_week` from src/rain_flow.py:

    rain = [forecast["rain"].get("3h", 0) for forecast in data["list"] if "rain" in forecast]
    return True if sum([s >= 1 for s in rain]) >= 1 else False

The result is `Except.ok` of the returned boolean, or `Except.error`
naming the Python exception class when the code raises. -/
def is_raining_this_week (data : Json) : Except String Bool := do
  let lst ← pySubscript data "list"
  let entries ← pyIter lst
  classifyEntries entries

/-! ## The fetch stage: URL construction, HTTP, retries -/

/-- `base_url` from `pull_forecast`. -/
def base_url : String := "http://api.openweathermap.org/data/2.5/forecast?"

/-- The request URL built in `pull_forecast`:
`url = base_url + "appid=" + api_key + "&q=" + city`
(plain string concatenation). -/
def forecastUrl (city api_key : String) : String :=
  base_url ++ "appid=" ++ api_key ++ "&q=" ++ city

/-- An HTTP response to one fetch attempt: the status code and the
parsed JSON body. -/
structure HttpResponse where
  status : Nat
  body : Json

/-- `r.raise_for_status()` of the requests library: raises HTTPError
exactly when the status code is a 4xx client error or a 5xx server
error. -/
def raise_for_status (r : HttpResponse) : Except String Unit :=
  if 400 ≤ r.status ∧ r.status < 600 then Except.error "HTTPError" else Except.ok ()

/-- The observable outputs of one `pull_forecast` attempt: the link
artifact recorded through `create_link(url)` and the URL of the
outbound GET request. -/
structure AttemptTrace where
  artifact : String
  request : String

/-- One attempt of `pull_forecast`, given the response the weather
service returns to the request: build the URL, record it as a link
artifact, issue the GET, raise for a bad status, return the parsed
body.  The first component is the trace of observable outputs, the
second the result (or the raised error). -/
def pull_forecast_attempt (city api_key : String) (r : HttpResponse) :
    AttemptTrace × Except String Json :=
  let url := forecastUrl city api_key
  (⟨url, url⟩, do
    let _ ← raise_for_status r
    Except.ok r.body)

/-- `max_retries=2` from the task decorator of `pull_forecast`. -/
def max_retries : Nat := 2

/-- `retry_delay=datetime.timedelta(seconds=5)` from the task
decorator of `pull_forecast`, in seconds. -/
def retry_delay : Nat := 5

/-- Modelled from the spec: the retry loop the orchestrator runs
around a task (the engine itself belongs to the workflow framework,
not to this repository): run the attempt; on failure, while retries
remain, sleep the fixed delay and try again; surface the last failure
once retries are exhausted.  `attempts i` is the response the service
returns to attempt `i`; the second argument counts the retries still
available.  Returns the traces of the attempts made, the delays slept
between attempts, and the final outcome. -/
def runWithRetries (city api_key : String) (attempts : Nat → HttpResponse) :
    Nat → Nat → List AttemptTrace × List Nat × Except String Json
  | i, 0 =>
      let a := pull_forecast_attempt city api_key (attempts i)
      ([a.1], [], a.2)
  | i, n + 1 =>
      let a := pull_forecast_attempt city api_key (attempts i)
      match a.2 with
      | Except.ok v => ([a.1], [], Except.ok v)
      | Except.error _ =>
          let next := runWithRetries city api_key attempts (i + 1) n
          (a.1 :: next.1, retry_delay :: next.2.1, next.2.2)

/-- The fetch stage as deployed: `pull_forecast` run under its
declared retry policy, starting at attempt 0 with `max_retries`
retries available. -/
def pull_forecast (city api_key : String) (attempts : Nat → HttpResponse) :
    List AttemptTrace × List Nat × Except String Json :=
  runWithRetries city api_key attempts 0 max_retries

/-! ## The notifiers and the flow wiring -/

/-- The two SlackTask instances wired in the flow. -/
inductive Notification where
  | rainMsg : Notification
  | dryMsg : Notification
deriving DecidableEq, Repr

/-- The message text of each SlackTask instance. -/
def notificationMessage : Notification → String
  | Notification.rainMsg => "RAIN in the forecast for this week!"
  | Notification.dryMsg => "NO RAIN in the forecast for this week!"

/-- The branch at the end of the flow.  Modelled from the spec: a
`case(rain, value)` block runs its body exactly when the classifier
result equals the given literal, so `case(rain, True)` fires
`rain_notification` and `case(rain, False)` fires
`dry_notification`. -/
def flow_notifications (rain : Bool) : List Notification :=
  (if rain = true then [Notification.rainMsg] else []) ++
  (if rain = false then [Notification.dryMsg] else [])

/-- `Parameter(name="City", default="San Francisco")`: the declared
default of the City parameter. -/
def city_default : String := "San Francisco"

/-- Modelled from the spec: a runtime Parameter resolves to the value
the caller supplies, and to its declared default when the caller
supplies none (parameter resolution belongs to the workflow
framework, not to this repository). -/
def resolveCity (supplied : Option String) : String :=
  supplied.getD city_default

/-- Everything one run of the flow makes observable: the link
artifacts recorded, the outbound request URLs, the delays slept
between fetch attempts, the notifications fired, and the outcome
(the classifier decision, or the error that aborted the run). -/
structure RunResult where
  artifacts : List String
  requests : List String
  delays : List Nat
  fired : List Notification
  outcome : Except String Bool

/-- One run of the flow: resolve the City parameter, fetch the
forecast under the retry policy, classify, and fire exactly the
notifiers whose `case` branch matches.  A fetch failure (or a
classifier exception) aborts the run before any notifier executes. -/
def flow_run (suppliedCity : Option String) (api_key : String)
    (attempts : Nat → HttpResponse) : RunResult :=
  let f := pull_forecast (resolveCity suppliedCity) api_key attempts
  let arts := f.1.map AttemptTrace.artifact
  let reqs := f.1.map AttemptTrace.request
  match f.2.2 with
  | Except.error e => ⟨arts, reqs, f.2.1, [], Except.error e⟩
  | Except.ok data =>
      match is_raining_this_week data with
      | Except.error e => ⟨arts, reqs, f.2.1, [], Except.error e⟩
      | Except.ok rain => ⟨arts, reqs, f.2.1, flow_notifications rain, Except.ok rain⟩

/-! ## Analysis of the classifier, entry by entry -/

/-- What the classifier does with one entry, all phases fused: the
membership test, then for a passing entry the subscript, the `get`
with default 0 and the comparison with 1.  `some flag` for an entry
that contributes a comparison flag, `none` for a filtered-out entry,
an error when any phase raises. -/
def entryStep (forecast : Json) : Except String (Option Bool) := do
  let hasRain ← pyHasRain forecast
  if hasRain then
    let r ← pySubscript forecast "rain"
    let v ← pyDictGet r "3h" (Json.num 0)
    let flag ← pyGeOne v
    Except.ok (some flag)
  else
    Except.ok none

/-- Whether every phase of the classifier succeeds on the entry. -/
def entryOk (e : Json) : Bool :=
  match entryStep e with
  | Except.ok _ => true
  | Except.error _ => false

/-- The value the comprehension collects for the entry, when the
entry passes the filter and the collection phase succeeds. -/
def entryVal (e : Json) : Option Json :=
  match pyHasRain e with
  | Except.ok true =>
      match pySubscript e "rain" with
      | Except.ok r =>
          match pyDictGet r "3h" (Json.num 0) with
          | Except.ok v => some v
          | Except.error _ => none
      | Except.error _ => none
  | _ => none

/-- The comparison flag the entry contributes, when it contributes
one. -/
def entryFlag (e : Json) : Option Bool :=
  match entryStep e with
  | Except.ok v => v
  | Except.error _ => none

/-- Whether the entry contributes a successful comparison, that is,
carries a rain field whose defaulted 3h value is at least 1. -/
def entryRainy (e : Json) : Bool :=
  match entryStep e with
  | Except.ok (some true) => true
  | _ => false

/-! ## The spec's view of the data model -/

/-- A well-formed forecast entry: a JSON object whose rain field,
when present, is an object whose 3h sub-key, when present, holds a
number. -/
def WFEntry (e : Json) : Bool :=
  match e with
  | Json.obj fields =>
      match dictLookup fields "rain" with
      | none => true
      | some (Json.obj rfields) =>
          match dictLookup rfields "3h" with
          | none => true
          | some (Json.num _) => true
          | some _ => false
      | some _ => false
  | _ => false

/-- The entry sequence of a response: the value of its list field,
when the response is an object carrying one that is a JSON array. -/
def entryList (d : Json) : Option (List Json) :=
  match d with
  | Json.obj fields =>
      match dictLookup fields "list" with
      | some (Json.arr l) => some l
      | _ => none
  | _ => none

/-- A well-formed forecast response: an object whose list field is an
array of well-formed entries. -/
def WFResponse (d : Json) : Bool :=
  match entryList d with
  | some l => l.all WFEntry
  | none => false

/-- The precipitation value the spec attributes to an entry: for an
entry carrying a rain field, the value of the 3h sub-key, defaulting
to 0 when the sub-key is absent; nothing for an entry without a rain
field.  (Meaningful on well-formed entries.) -/
def spec_entry_precip (e : Json) : Option ℚ :=
  match e with
  | Json.obj fields =>
      match dictLookup fields "rain" with
      | some (Json.obj rfields) =>
          match dictLookup rfields "3h" with
          | some (Json.num q) => some q
          | _ => some 0
      | _ => none
  | _ => none

/-- Whether the spec counts the entry as rainy: it carries a
precipitation field whose defaulted value meets the threshold 1. -/
def spec_entry_rainy (e : Json) : Bool :=
  match spec_entry_precip e with
  | some q => decide (1 ≤ q)
  | none => false

/-- The rain decision as the spec states it: true exactly when at
least one entry carries a precipitation field whose defaulted 3h
value is at least the threshold 1. -/
def spec_rain_decision (d : Json) : Bool :=
  ((entryList d).getD []).any spec_entry_rainy

/-! ## URL anatomy (the interface the spec describes) -/

/-- Split a character list at every occurrence of the separator. -/
def splitOnChar (c : Char) : List Char → List (List Char)
  | [] => [[]]
  | x :: xs =>
      let r := splitOnChar c xs
      if x = c then [] :: r
      else (x :: r.headD []) :: r.tail

/-- The path part of a URL: everything before the first question
mark. -/
def urlPath (url : String) : String :=
  String.mk (url.toList.takeWhile (fun c => c ≠ '?'))

/-- The query part of a URL: everything after the first question
mark (empty when there is none). -/
def urlQuery (url : String) : List Char :=
  (url.toList.dropWhile (fun c => c ≠ '?')).drop 1

/-- One `name=value` component of a query string: the name is
everything before the first equals sign, the value everything after
it. -/
def paramPair (p : List Char) : List Char × List Char :=
  (p.takeWhile (fun c => c ≠ '='), (p.dropWhile (fun c => c ≠ '=')).drop 1)

/-- The query parameters of a URL: the ampersand-separated
components of its query string, each split into name and value. -/
def queryParams (url : String) : List (List Char × List Char) :=
  (splitOnChar '&' (urlQuery url)).map paramPair

/-- The value of the named query parameter, when the URL carries
one. -/
def getParam (url : String) (name : String) : Option String :=
  ((queryParams url).find? (fun p => p.1 == name.toList)).map (fun p => String.mk p.2)

/-! ## Lemmas: the classifier entry by entry -/

lemma exceptOkBind {α β : Type} (a : α) (f : α → Except String β) :
    (Except.ok a >>= f) = f a := rfl

lemma exceptErrorBind {α β : Type} (e : String) (f : α → Except String β) :
    (Except.error e >>= f : Except String β) = Except.error e := rfl

lemma any_key_eq_isSome (fields : List (String × Json)) (k : String) :
    fields.any (fun p => p.1 == k) = (dictLookup fields k).isSome := by
  induction fields with
  | nil => rfl
  | cons p fs ih =>
      by_cases h : p.1 == k
      · simp [dictLookup, List.find?, h]
      · simp only [List.any_cons, h, Bool.false_or]
        rw [ih]
        simp [dictLookup, List.find?, h]

lemma collectRain_ok (l : List Json) (h : l.all entryOk = true) :
    collectRain l = Except.ok (l.filterMap entryVal) := by
  induction l with
  | nil => rfl
  | cons e l ih =>
      simp only [List.all_cons, Bool.and_eq_true] at h
      obtain ⟨he, hl⟩ := h
      rcases hh : pyHasRain e with m | hr
      · simp [entryOk, entryStep, hh, exceptErrorBind] at he
      · rcases hr with _ | _
        · have hv : entryVal e = none := by simp [entryVal, hh]
          simp [collectRain, hh, exceptOkBind, List.filterMap_cons_none hv, ih hl]
        · rcases hs : pySubscript e "rain" with m | r
          · simp [entryOk, entryStep, hh, hs, exceptOkBind, exceptErrorBind] at he
          · rcases hg : pyDictGet r "3h" (Json.num 0) with m | v
            · simp [entryOk, entryStep, hh, hs, hg, exceptOkBind, exceptErrorBind] at he
            · have hv : entryVal e = some v := by simp [entryVal, hh, hs, hg]
              simp [collectRain, hh, hs, hg, exceptOkBind, ih hl,
                List.filterMap_cons_some hv]

lemma mapM_flags (l : List Json) (h : l.all entryOk = true) :
    (l.filterMap entryVal).mapM pyGeOne = Except.ok (l.filterMap entryFlag) := by
  induction l with
  | nil => rfl
  | cons e l ih =>
      simp only [List.all_cons, Bool.and_eq_true] at h
      obtain ⟨he, hl⟩ := h
      rcases hh : pyHasRain e with m | hr
      · simp [entryOk, entryStep, hh, exceptErrorBind] at he
      · rcases hr with _ | _
        · have hv : entryVal e = none := by simp [entryVal, hh]
          have hf : entryFlag e = none := by
            simp [entryFlag, entryStep, hh, exceptOkBind]
          rw [List.filterMap_cons_none hv, List.filterMap_cons_none hf]
          exact ih hl
        · rcases hs : pySubscript e "rain" with m | r
          · simp [entryOk, entryStep, hh, hs, exceptOkBind, exceptErrorBind] at he
          · rcases hg : pyDictGet r "3h" (Json.num 0) with m | v
            · simp [entryOk, entryStep, hh, hs, hg, exceptOkBind, exceptErrorBind] at he
            · rcases hq : pyGeOne v with m | flag
              · simp [entryOk, entryStep, hh, hs, hg, hq, exceptOkBind,
                  exceptErrorBind] at he
              · have hv : entryVal e = some v := by simp [entryVal, hh, hs, hg]
                have hf : entryFlag e = some flag := by
                  simp [entryFlag, entryStep, hh, hs, hg, hq, exceptOkBind]
                rw [List.filterMap_cons_some hv, List.filterMap_cons_some hf,
                  List.mapM_cons, hq, ih hl]
                rfl

lemma countP_filterMap_flags (l : List Json) :
    (l.filterMap entryFlag).countP (fun b => b) = l.countP entryRainy := by
  induction l with
  | nil => rfl
  | cons e l ih =>
      rcases hst : entryStep e with m | v
      · have hf : entryFlag e = none := by simp [entryFlag, hst]
        have hr : entryRainy e = false := by simp [entryRainy, hst]
        rw [List.filterMap_cons_none hf, List.countP_cons, hr, ih]
        simp
      · rcases v with _ | flag
        · have hf : entryFlag e = none := by simp [entryFlag, hst]
          have hr : entryRainy e = false := by simp [entryRainy, hst]
          rw [List.filterMap_cons_none hf, List.countP_cons, hr, ih]
          simp
        · have hf : entryFlag e = some flag := by simp [entryFlag, hst]
          have hr : entryRainy e = flag := by cases flag <;> simp [entryRainy, hst]
          rw [List.filterMap_cons_some hf, List.countP_cons, List.countP_cons, hr, ih]

lemma classifyEntries_ok (l : List Json) (h : l.all entryOk = true) :
    classifyEntries l = Except.ok (decide (1 ≤ l.countP entryRainy)) := by
  rw [classifyEntries, collectRain_ok l h, exceptOkBind, mapM_flags l h,
    exceptOkBind, countP_filterMap_flags]


lemma collectRain_cons_err_has (e : Json) (l : List Json) (m : String)
    (hh : pyHasRain e = Except.error m) :
    collectRain (e :: l) = Except.error m := by
  simp only [collectRain, hh, exceptErrorBind]

lemma collectRain_cons_skip (e : Json) (l : List Json)
    (hh : pyHasRain e = Except.ok false) :
    collectRain (e :: l) = collectRain l := by
  simp only [collectRain, hh, exceptOkBind, Bool.false_eq_true, if_false]

lemma collectRain_cons_err_sub (e : Json) (l : List Json) (m : String)
    (hh : pyHasRain e = Except.ok true) (hs : pySubscript e "rain" = Except.error m) :
    collectRain (e :: l) = Except.error m := by
  simp only [collectRain, hh, hs, exceptOkBind, exceptErrorBind, if_true]

lemma collectRain_cons_err_get (e : Json) (l : List Json) (r : Json) (m : String)
    (hh : pyHasRain e = Except.ok true) (hs : pySubscript e "rain" = Except.ok r)
    (hg : pyDictGet r "3h" (Json.num 0) = Except.error m) :
    collectRain (e :: l) = Except.error m := by
  simp only [collectRain, hh, hs, hg, exceptOkBind, exceptErrorBind, if_true]

lemma collectRain_cons_take (e : Json) (l : List Json) (r v : Json)
    (hh : pyHasRain e = Except.ok true) (hs : pySubscript e "rain" = Except.ok r)
    (hg : pyDictGet r "3h" (Json.num 0) = Except.ok v) :
    collectRain (e :: l) =
      collectRain l >>= fun tail => Except.ok (v :: tail) := by
  simp only [collectRain, hh, hs, hg, exceptOkBind, if_true]

lemma classifyEntries_unfold (l : List Json) :
    classifyEntries l =
      collectRain l >>= fun rain =>
        rain.mapM pyGeOne >>= fun flags =>
          Except.ok (decide (1 ≤ flags.countP (fun b => b))) := rfl

lemma mapM_pyGeOne_cons (v : Json) (tail : List Json) :
    List.mapM pyGeOne (v :: tail) =
      pyGeOne v >>= fun b => List.mapM pyGeOne tail >>= fun bs => Except.ok (b :: bs) := by
  rw [List.mapM_cons]
  rfl

lemma classifyEntries_error (l : List Json) (h : l.all entryOk = false) :
    ∃ msg, classifyEntries l = Except.error msg := by
  induction l with
  | nil => simp [List.all_nil] at h
  | cons e l ih =>
      rcases hok : entryOk e with _ | _
      · rcases hh : pyHasRain e with m | hr
        · exact ⟨m, by rw [classifyEntries_unfold, collectRain_cons_err_has e l m hh,
            exceptErrorBind]⟩
        · rcases hr with _ | _
          · simp [entryOk, entryStep, hh, exceptOkBind] at hok
          · rcases hs : pySubscript e "rain" with m | r
            · exact ⟨m, by rw [classifyEntries_unfold,
                collectRain_cons_err_sub e l m hh hs, exceptErrorBind]⟩
            · rcases hg : pyDictGet r "3h" (Json.num 0) with m | v
              · exact ⟨m, by rw [classifyEntries_unfold,
                  collectRain_cons_err_get e l r m hh hs hg, exceptErrorBind]⟩
              · rcases hq : pyGeOne v with m | flag
                · rcases hc : collectRain l with m2 | tail
                  · exact ⟨m2, by rw [classifyEntries_unfold,
                      collectRain_cons_take e l r v hh hs hg, hc, exceptErrorBind,
                      exceptErrorBind]⟩
                  · refine ⟨m, ?_⟩
                    rw [classifyEntries_unfold, collectRain_cons_take e l r v hh hs hg,
                      hc, exceptOkBind, exceptOkBind, mapM_pyGeOne_cons, hq,
                      exceptErrorBind, exceptErrorBind]
                · exfalso
                  simp [entryOk, entryStep, hh, hs, hg, hq, exceptOkBind] at hok
      · have hl : l.all entryOk = false := by
          simp only [List.all_cons, hok, Bool.true_and] at h
          exact h
        obtain ⟨m, hm⟩ := ih hl
        rcases hh : pyHasRain e with m0 | hr
        · simp [entryOk, entryStep, hh, exceptErrorBind] at hok
        · rcases hr with _ | _
          · exact ⟨m, by rw [classifyEntries_unfold, collectRain_cons_skip e l hh,
              ← classifyEntries_unfold, hm]⟩
          · rcases hs : pySubscript e "rain" with m0 | r
            · simp [entryOk, entryStep, hh, hs, exceptOkBind, exceptErrorBind] at hok
            · rcases hg : pyDictGet r "3h" (Json.num 0) with m0 | v
              · simp [entryOk, entryStep, hh, hs, hg, exceptOkBind,
                  exceptErrorBind] at hok
              · rcases hc : collectRain l with m2 | tail
                · exact ⟨m2, by rw [classifyEntries_unfold,
                    collectRain_cons_take e l r v hh hs hg, hc, exceptErrorBind,
                    exceptErrorBind]⟩
                · rcases hq : pyGeOne v with m0 | flag
                  · simp [entryOk, entryStep, hh, hs, hg, hq, exceptOkBind,
                      exceptErrorBind] at hok
                  · rcases hmm : tail.mapM pyGeOne with m2 | flags
                    · refine ⟨m2, ?_⟩
                      rw [classifyEntries_unfold, collectRain_cons_take e l r v hh hs hg,
                        hc, exceptOkBind, exceptOkBind, mapM_pyGeOne_cons, hq,
                        exceptOkBind, hmm, exceptErrorBind, exceptErrorBind]
                    · exfalso
                      rw [classifyEntries_unfold, hc, exceptOkBind, hmm,
                        exceptOkBind] at hm
                      cases hm

lemma classifyEntries_eq_ok_iff (l : List Json) (b : Bool) :
    classifyEntries l = Except.ok b ↔
      l.all entryOk = true ∧ b = decide (1 ≤ l.countP entryRainy) := by
  constructor
  · intro h
    rcases hall : l.all entryOk with _ | _
    · obtain ⟨m, hm⟩ := classifyEntries_error l hall
      rw [hm] at h
      cases h
    · rw [classifyEntries_ok l hall] at h
      exact ⟨rfl, (Except.ok.inj h).symm⟩
  · rintro ⟨h1, h2⟩
    rw [classifyEntries_ok l h1, h2]

lemma is_raining_obj_list (fs : List (String × Json)) (l : List Json)
    (h : dictLookup fs "list" = some (Json.arr l)) :
    is_raining_this_week (Json.obj fs) = classifyEntries l := by
  simp only [is_raining_this_week, pySubscript, h, exceptOkBind, pyIter]

lemma one_le_countP_eq_any {α : Type} (l : List α) (p : α → Bool) :
    decide (1 ≤ l.countP p) = l.any p := by
  rcases h : l.any p with _ | _
  · rw [List.any_eq_false] at h
    have h0 : l.countP p = 0 := List.countP_eq_zero.mpr h
    simp [h0]
  · rw [List.any_eq_true] at h
    obtain ⟨x, hx, hp⟩ := h
    have h0 : 0 < l.countP p := List.countP_pos_iff.mpr ⟨x, hx, hp⟩
    simpa using h0

/-! ## Lemmas: well-formed responses -/

lemma wf_entryStep (e : Json) (h : WFEntry e = true) :
    entryStep e =
      Except.ok
        (match spec_entry_precip e with
         | some q => some (decide (1 ≤ q))
         | none => none) := by
  rcases e with _ | b | q | s | items | fields
  case obj =>
    rcases hr : dictLookup fields "rain" with _ | r
    · have hh : pyHasRain (Json.obj fields) = Except.ok false := by
        simp [pyHasRain, any_key_eq_isSome, hr]
      simp only [entryStep, hh, exceptOkBind, Bool.false_eq_true, if_false,
        spec_entry_precip, hr]
    · rcases r with _ | b | q | s | items2 | rfields
      case obj =>
        have hh : pyHasRain (Json.obj fields) = Except.ok true := by
          simp [pyHasRain, any_key_eq_isSome, hr]
        have hs : pySubscript (Json.obj fields) "rain" = Except.ok (Json.obj rfields) := by
          simp [pySubscript, hr]
        rcases h3 : dictLookup rfields "3h" with _ | j
        · simp only [entryStep, hh, exceptOkBind, if_true, hs, pyDictGet, h3,
            Option.getD_none, pyGeOne, spec_entry_precip, hr]
        · rcases j with _ | b2 | q | s2 | items3 | f3
          case num =>
            simp only [entryStep, hh, exceptOkBind, if_true, hs, pyDictGet, h3,
              Option.getD_some, pyGeOne, spec_entry_precip, hr]
          all_goals simp [WFEntry, hr, h3] at h
      all_goals simp [WFEntry, hr] at h
  all_goals simp [WFEntry] at h

lemma wf_entryOk (e : Json) (h : WFEntry e = true) : entryOk e = true := by
  rw [entryOk, wf_entryStep e h]

lemma wf_entryRainy (e : Json) (h : WFEntry e = true) :
    entryRainy e = spec_entry_rainy e := by
  rw [entryRainy, wf_entryStep e h, spec_entry_rainy]
  rcases hp : spec_entry_precip e with _ | q
  · rfl
  · rcases hd : decide (1 ≤ q) with _ | _ <;> simp [hd]

/-- On a well-formed response the classifier returns, and returns the
decision the spec describes. -/
lemma classify_wf (d : Json) (h : WFResponse d = true) :
    is_raining_this_week d = Except.ok (spec_rain_decision d) := by
  rcases hl : entryList d with _ | l
  · rw [WFResponse, hl] at h
    cases h
  · have hall : l.all WFEntry = true := by
      rw [WFResponse, hl] at h
      exact h
    rcases d with _ | b | q | s | items | fields
    case obj =>
      have hfs : dictLookup fields "list" = some (Json.arr l) := by
        rcases hlk : dictLookup fields "list" with _ | j
        · simp [entryList, hlk] at hl
        · rcases j with _ | _ | _ | _ | items2 | _ <;>
            simp [entryList, hlk] at hl
          rw [hl]
      have hok : l.all entryOk = true := by
        rw [List.all_eq_true] at hall ⊢
        exact fun e he => wf_entryOk e (hall e he)
      rw [is_raining_obj_list fields l hfs, classifyEntries_ok l hok,
        spec_rain_decision, hl, Option.getD_some]
      have hcnt : l.countP entryRainy = l.countP spec_entry_rainy := by
        apply List.countP_congr
        intro e he
        rw [wf_entryRainy e (by rw [List.all_eq_true] at hall; exact hall e he)]
      rw [hcnt, one_le_countP_eq_any]
    all_goals simp [entryList] at hl

/-! ## Lemmas: fetch attempts, retries and the flow wiring -/

lemma attempt_trace (city api_key : String) (r : HttpResponse) :
    (pull_forecast_attempt city api_key r).1 =
      ⟨forecastUrl city api_key, forecastUrl city api_key⟩ := rfl

lemma attempt_result (city api_key : String) (r : HttpResponse) :
    (pull_forecast_attempt city api_key r).2 =
      raise_for_status r >>= fun _ => Except.ok r.body := rfl

lemma attempt_err (city api_key : String) (r : HttpResponse)
    (h4 : 400 ≤ r.status) (h6 : r.status < 600) :
    (pull_forecast_attempt city api_key r).2 = Except.error "HTTPError" := by
  rw [attempt_result, raise_for_status, if_pos ⟨h4, h6⟩, exceptErrorBind]

lemma attempt_ok (city api_key : String) (r : HttpResponse)
    (h : ¬(400 ≤ r.status ∧ r.status < 600)) :
    (pull_forecast_attempt city api_key r).2 = Except.ok r.body := by
  rw [attempt_result, raise_for_status, if_neg h, exceptOkBind]

lemma runWithRetries_traces (city api_key : String) (attempts : Nat → HttpResponse)
    (n i : Nat) :
    ∀ t ∈ (runWithRetries city api_key attempts i n).1,
      t = ⟨forecastUrl city api_key, forecastUrl city api_key⟩ := by
  induction n generalizing i with
  | zero =>
      intro t ht
      simp only [runWithRetries, List.mem_singleton] at ht
      rw [ht, attempt_trace]
  | succ n ih =>
      intro t ht
      simp only [runWithRetries] at ht
      rcases ha : (pull_forecast_attempt city api_key (attempts i)).2 with m | v <;>
        rw [ha] at ht
      · simp only [List.mem_cons] at ht
        rcases ht with ht | ht
        · rw [ht, attempt_trace]
        · exact ih (i + 1) t ht
      · simp only [List.mem_singleton] at ht
        rw [ht, attempt_trace]

lemma runWithRetries_traces_nonempty (city api_key : String)
    (attempts : Nat → HttpResponse) (n i : Nat) :
    (runWithRetries city api_key attempts i n).1 ≠ [] := by
  cases n with
  | zero => simp [runWithRetries]
  | succ n =>
      simp only [runWithRetries]
      rcases ha : (pull_forecast_attempt city api_key (attempts i)).2 with m | v <;>
        simp [ha]

lemma runWithRetries_result_indep (c₁ k₁ c₂ k₂ : String)
    (attempts : Nat → HttpResponse) (n i : Nat) :
    (runWithRetries c₁ k₁ attempts i n).2 = (runWithRetries c₂ k₂ attempts i n).2 := by
  induction n generalizing i with
  | zero => simp only [runWithRetries, attempt_result]
  | succ n ih =>
      simp only [runWithRetries, attempt_result]
      rcases ha : raise_for_status (attempts i) >>= fun _ =>
          Except.ok (attempts i).body with m | v
      · simp only [ha, ih (i + 1)]
      · simp only [ha]

/-! ## Lemmas: URL anatomy -/

lemma splitOnChar_not_mem (c : Char) (l : List Char) (h : c ∉ l) :
    splitOnChar c l = [l] := by
  induction l with
  | nil => rfl
  | cons x xs ih =>
      have hx : ¬(x = c) := fun hc => h (hc ▸ List.mem_cons_self x xs)
      have hxs : c ∉ xs := fun hc => h (List.mem_cons_of_mem x hc)
      simp only [splitOnChar, if_neg hx, ih hxs]
      rfl

lemma splitOnChar_append (c : Char) (l₁ l₂ : List Char) (h : c ∉ l₁) :
    splitOnChar c (l₁ ++ c :: l₂) = l₁ :: splitOnChar c l₂ := by
  induction l₁ with
  | nil => simp [splitOnChar]
  | cons x xs ih =>
      have hx : ¬(x = c) := fun hc => h (hc ▸ List.mem_cons_self x xs)
      have hxs : c ∉ xs := fun hc => h (List.mem_cons_of_mem x hc)
      simp only [List.cons_append, splitOnChar, if_neg hx, List.append_eq]
      rw [ih hxs]
      rfl

lemma takeWhile_until_sep (sep : Char) (l₁ l₂ : List Char) (h : sep ∉ l₁) :
    (l₁ ++ sep :: l₂).takeWhile (fun c => c ≠ sep) = l₁ := by
  rw [List.takeWhile_append_of_pos]
  · simp
  · intro a ha
    simp only [ne_eq, decide_eq_true_eq]
    exact fun hc => h (hc ▸ ha)

lemma dropWhile_until_sep (sep : Char) (l₁ l₂ : List Char) (h : sep ∉ l₁) :
    (l₁ ++ sep :: l₂).dropWhile (fun c => c ≠ sep) = sep :: l₂ := by
  rw [List.dropWhile_append_of_pos]
  · simp
  · intro a ha
    simp only [ne_eq, decide_eq_true_eq]
    exact fun hc => h (hc ▸ ha)

lemma forecastUrl_toList (c k : String) :
    (forecastUrl c k).toList =
      "http://api.openweathermap.org/data/2.5/forecast".toList ++
        '?' :: ("appid".toList ++ '=' :: (k.toList ++ '&' :: ('q' :: '=' :: c.toList))) := by
  have hb : base_url.data =
      "http://api.openweathermap.org/data/2.5/forecast".data ++ ['?'] := by decide
  have h2 : "appid=".data = "appid".data ++ ['='] := by decide
  have h3 : "&q=".data = ['&', 'q', '='] := by decide
  simp only [forecastUrl, String.toList, String.data_append, hb, h2, h3,
    List.append_assoc, List.cons_append, List.singleton_append, List.nil_append]

lemma urlPath_forecastUrl (c k : String) :
    urlPath (forecastUrl c k) = "http://api.openweathermap.org/data/2.5/forecast" := by
  rw [urlPath, forecastUrl_toList, takeWhile_until_sep '?' _ _ (by decide)]
  rfl

lemma urlQuery_forecastUrl (c k : String) :
    urlQuery (forecastUrl c k) =
      "appid".toList ++ '=' :: (k.toList ++ '&' :: ('q' :: '=' :: c.toList)) := by
  rw [urlQuery, forecastUrl_toList, dropWhile_until_sep '?' _ _ (by decide)]
  rfl

lemma queryParams_forecastUrl (c k : String)
    (hc : '&' ∉ c.toList) (hk : '&' ∉ k.toList) :
    queryParams (forecastUrl c k) =
      [("appid".toList, k.toList), (['q'], c.toList)] := by
  rw [queryParams, urlQuery_forecastUrl]
  have hshape : "appid".toList ++ '=' :: (k.toList ++ '&' :: ('q' :: '=' :: c.toList)) =
      ("appid".toList ++ '=' :: k.toList) ++ '&' :: ('q' :: '=' :: c.toList) := by
    simp [List.append_assoc, List.cons_append]
  rw [hshape]
  have hA : '&' ∉ "appid".toList ++ '=' :: k.toList := by
    intro hmem
    rcases List.mem_append.mp hmem with h | h
    · revert h
      decide
    · rcases List.mem_cons.mp h with h | h
      · cases h
      · exact hk h
  have hB : '&' ∉ ('q' :: '=' :: c.toList) := by
    intro hmem
    rcases List.mem_cons.mp hmem with h | h
    · cases h
    · rcases List.mem_cons.mp h with h2 | h2
      · cases h2
      · exact hc h2
  rw [splitOnChar_append '&' _ _ hA, splitOnChar_not_mem '&' _ hB, List.map_cons,
    List.map_cons, List.map_nil]
  have hpA : paramPair ("appid".toList ++ '=' :: k.toList) = ("appid".toList, k.toList) := by
    rw [paramPair, takeWhile_until_sep '=' _ _ (by decide),
      dropWhile_until_sep '=' _ _ (by decide)]
    rfl
  have hpB : paramPair ('q' :: '=' :: c.toList) = (['q'], c.toList) := by
    have hq : ('q' :: '=' :: c.toList) = ['q'] ++ '=' :: c.toList := rfl
    rw [paramPair, hq, takeWhile_until_sep '=' _ _ (by decide),
      dropWhile_until_sep '=' _ _ (by decide)]
    rfl
  rw [hpA, hpB]

lemma getParam_appid (c k : String) (hc : '&' ∉ c.toList) (hk : '&' ∉ k.toList) :
    getParam (forecastUrl c k) "appid" = some k := by
  rw [getParam, queryParams_forecastUrl c k hc hk]
  rfl

lemma getParam_q (c k : String) (hc : '&' ∉ c.toList) (hk : '&' ∉ k.toList) :
    getParam (forecastUrl c k) "q" = some c := by
  rw [getParam, queryParams_forecastUrl c k hc hk]
  rfl

/-! ## Lemmas: one run of the flow -/

lemma flow_run_fired_of_ok (s : Option String) (k : String)
    (att : Nat → HttpResponse) (b : Bool)
    (h : (flow_run s k att).outcome = Except.ok b) :
    (flow_run s k att).fired = flow_notifications b := by
  rcases hf : (pull_forecast (resolveCity s) k att).2.2 with m | data
  · simp only [flow_run, hf] at h
    cases h
  · rcases hr : is_raining_this_week data with m | rain
    · simp only [flow_run, hf, hr] at h
      cases h
    · simp only [flow_run, hf, hr] at h ⊢
      rw [Except.ok.inj h]

lemma flow_run_artifacts (s : Option String) (k : String) (att : Nat → HttpResponse) :
    (flow_run s k att).artifacts =
      (pull_forecast (resolveCity s) k att).1.map AttemptTrace.artifact := by
  rcases hf : (pull_forecast (resolveCity s) k att).2.2 with m | data
  · simp only [flow_run, hf]
  · rcases hr : is_raining_this_week data with m | rain <;>
      simp only [flow_run, hf, hr]

lemma flow_run_requests (s : Option String) (k : String) (att : Nat → HttpResponse) :
    (flow_run s k att).requests =
      (pull_forecast (resolveCity s) k att).1.map AttemptTrace.request := by
  rcases hf : (pull_forecast (resolveCity s) k att).2.2 with m | data
  · simp only [flow_run, hf]
  · rcases hr : is_raining_this_week data with m | rain <;>
      simp only [flow_run, hf, hr]

lemma flow_run_delays (s : Option String) (k : String) (att : Nat → HttpResponse) :
    (flow_run s k att).delays = (pull_forecast (resolveCity s) k att).2.1 := by
  rcases hf : (pull_forecast (resolveCity s) k att).2.2 with m | data
  · simp only [flow_run, hf]
  · rcases hr : is_raining_this_week data with m | rain <;>
      simp only [flow_run, hf, hr]

lemma flow_run_fetch_fail (s : Option String) (k : String)
    (att : Nat → HttpResponse) (m : String)
    (h : (pull_forecast (resolveCity s) k att).2.2 = Except.error m) :
    (flow_run s k att).fired = [] ∧ (flow_run s k att).outcome = Except.error m := by
  constructor <;> simp only [flow_run, h]

lemma pull_forecast_all_fail (c k : String) (att : Nat → HttpResponse)
    (h : ∀ i, i < 3 → 400 ≤ (att i).status ∧ (att i).status < 600) :
    pull_forecast c k att =
      (List.replicate 3 ⟨forecastUrl c k, forecastUrl c k⟩,
        [retry_delay, retry_delay], Except.error "HTTPError") := by
  have e0 := attempt_err c k (att 0) (h 0 (by omega)).1 (h 0 (by omega)).2
  have e1 := attempt_err c k (att 1) (h 1 (by omega)).1 (h 1 (by omega)).2
  have e2 := attempt_err c k (att 2) (h 2 (by omega)).1 (h 2 (by omega)).2
  show runWithRetries c k att 0 2 = _
  simp only [runWithRetries, e0, e1, e2, attempt_trace]
  rfl

lemma pull_forecast_third_ok (c k : String) (att : Nat → HttpResponse)
    (h0 : 400 ≤ (att 0).status ∧ (att 0).status < 600)
    (h1 : 400 ≤ (att 1).status ∧ (att 1).status < 600)
    (h2 : ¬(400 ≤ (att 2).status ∧ (att 2).status < 600)) :
    pull_forecast c k att =
      (List.replicate 3 ⟨forecastUrl c k, forecastUrl c k⟩,
        [retry_delay, retry_delay], Except.ok (att 2).body) := by
  have e0 := attempt_err c k (att 0) h0.1 h0.2
  have e1 := attempt_err c k (att 1) h1.1 h1.2
  have e2 := attempt_ok c k (att 2) h2
  show runWithRetries c k att 0 2 = _
  simp only [runWithRetries, e0, e1, e2, attempt_trace]
  rfl

/-! ## The claims -/

/-- C1: for every (well-formed) forecast response, the Rain Classifier
returns true if and only if at least one entry of the response's entry
list carries a precipitation field whose 3h sub-key value (defaulting
to 0 when the sub-key is absent) is at least the threshold 1;
otherwise it returns false. -/
theorem claim_C1_classifier_contract (d : Json) (h : WFResponse d = true) :
    is_raining_this_week d = Except.ok (spec_rain_decision d) ∧
    (spec_rain_decision d = true ↔
      ∃ e ∈ (entryList d).getD [], ∃ q, spec_entry_precip e = some q ∧ 1 ≤ q) := by
  refine ⟨classify_wf d h, ?_⟩
  rw [spec_rain_decision, List.any_eq_true]
  constructor
  · rintro ⟨e, he, hr⟩
    rcases hp : spec_entry_precip e with _ | q
    · simp [spec_entry_rainy, hp] at hr
    · refine ⟨e, he, q, hp, ?_⟩
      simpa [spec_entry_rainy, hp] using hr
  · rintro ⟨e, he, q, hp, hq⟩
    refine ⟨e, he, ?_⟩
    simpa [spec_entry_rainy, hp] using hq

theorem claim_C1_witness :
    WFResponse (Json.obj [("list",
        Json.arr [Json.obj [("rain", Json.obj [("3h", Json.num 2)])]])]) = true ∧
    is_raining_this_week (Json.obj [("list",
        Json.arr [Json.obj [("rain", Json.obj [("3h", Json.num 2)])]])]) =
      Except.ok (spec_rain_decision (Json.obj [("list",
        Json.arr [Json.obj [("rain", Json.obj [("3h", Json.num 2)])]])])) :=
  ⟨rfl, (claim_C1_classifier_contract (Json.obj [("list",
    Json.arr [Json.obj [("rain", Json.obj [("3h", Json.num 2)])]])]) rfl).1⟩

/-- C2 as stated is false of the code: the classifier raises a KeyError
on a response without a list field, and an AttributeError on an entry
whose rain field is not a mapping. -/
theorem claim_C2_counterexample :
    is_raining_this_week (Json.obj []) = Except.error "KeyError" ∧
    is_raining_this_week
        (Json.obj [("list", Json.arr [Json.obj [("rain", Json.num 3)]])]) =
      Except.error "AttributeError: value has no attribute get" :=
  ⟨rfl, rfl⟩

/-- C2, amended: the classifier is total on well-formed responses (an
object whose list field is an array of entries whose rain field, when
present, is a mapping with a numeric or absent 3h sub-key); a missing
3h sub-key degrades to the default 0, hence to no rain contribution,
rather than erroring.  (On a missing entry list or a non-mapping
precipitation field the code raises.) -/
theorem claim_C2_amended_total_on_wf (d : Json) (h : WFResponse d = true) :
    (∃ b, is_raining_this_week d = Except.ok b) ∧
    (∀ fields rfields : List (String × Json),
      dictLookup fields "rain" = some (Json.obj rfields) →
      dictLookup rfields "3h" = none →
      entryStep (Json.obj fields) = Except.ok (some false)) := by
  refine ⟨⟨spec_rain_decision d, classify_wf d h⟩, ?_⟩
  intro fields rfields hr h3
  have hwf : WFEntry (Json.obj fields) = true := by
    simp [WFEntry, hr, h3]
  rw [wf_entryStep _ hwf]
  simp [spec_entry_precip, hr, h3]

theorem claim_C2_witness :
    WFResponse (Json.obj [("list", Json.arr [Json.obj [("rain", Json.obj [])]])]) = true ∧
    (∃ b, is_raining_this_week
        (Json.obj [("list", Json.arr [Json.obj [("rain", Json.obj [])]])]) =
      Except.ok b) ∧
    entryStep (Json.obj [("rain", Json.obj [])]) = Except.ok (some false) := by
  refine ⟨rfl, (claim_C2_amended_total_on_wf
    (Json.obj [("list", Json.arr [Json.obj [("rain", Json.obj [])]])]) rfl).1, ?_⟩
  exact (claim_C2_amended_total_on_wf
    (Json.obj [("list", Json.arr [Json.obj [("rain", Json.obj [])]])]) rfl).2
    [("rain", Json.obj [])] [] rfl rfl

/-- C7: on the response whose forecast list is the two entries
`[{}, {"rain": {"3h": 0.5}}]` the classifier returns false, the dry
notifier fires and the rain notifier does not. -/
theorem claim_C7_scenario_a :
    is_raining_this_week (Json.obj [("list", Json.arr [Json.obj [],
        Json.obj [("rain", Json.obj [("3h", Json.num (mkRat 1 2))])]])]) =
      Except.ok false ∧
    (flow_run (some "San Francisco") "KEY"
        (fun _ => ⟨200, Json.obj [("list", Json.arr [Json.obj [],
          Json.obj [("rain", Json.obj [("3h", Json.num (mkRat 1 2))])]])]⟩)).fired =
      [Notification.dryMsg] ∧
    Notification.rainMsg ∉
      (flow_run (some "San Francisco") "KEY"
        (fun _ => ⟨200, Json.obj [("list", Json.arr [Json.obj [],
          Json.obj [("rain", Json.obj [("3h", Json.num (mkRat 1 2))])]])]⟩)).fired :=
  ⟨rfl, rfl, by decide⟩

/-- C3: in every run in which the classifier produces a boolean,
exactly one notifier fires: the rain notifier exactly when the
decision is true, the dry notifier exactly when it is false; never
both, never neither. -/
theorem claim_C3_exactly_one_notifier (s : Option String) (k : String)
    (att : Nat → HttpResponse) (b : Bool)
    (h : (flow_run s k att).outcome = Except.ok b) :
    (flow_run s k att).fired.length = 1 ∧
    (Notification.rainMsg ∈ (flow_run s k att).fired ↔ b = true) ∧
    (Notification.dryMsg ∈ (flow_run s k att).fired ↔ b = false) := by
  rw [flow_run_fired_of_ok s k att b h]
  cases b <;> simp [flow_notifications]

theorem claim_C3_witness :
    (flow_run none "KEY" (fun _ => ⟨200, Json.obj [("list",
        Json.arr [Json.obj [("rain", Json.obj [("3h", Json.num 2)])]])]⟩)).fired.length
      = 1 ∧
    (Notification.rainMsg ∈ (flow_run none "KEY" (fun _ => ⟨200, Json.obj [("list",
        Json.arr [Json.obj [("rain", Json.obj [("3h", Json.num 2)])]])]⟩)).fired ↔
      true = true) ∧
    (Notification.dryMsg ∈ (flow_run none "KEY" (fun _ => ⟨200, Json.obj [("list",
        Json.arr [Json.obj [("rain", Json.obj [("3h", Json.num 2)])]])]⟩)).fired ↔
      true = false) :=
  claim_C3_exactly_one_notifier none "KEY"
    (fun _ => ⟨200, Json.obj [("list",
      Json.arr [Json.obj [("rain", Json.obj [("3h", Json.num 2)])]])]⟩) true rfl

/-- C5: the classifier is deterministic (equal inputs give equal
results), and its boolean result is invariant under every permutation
of the response's entry list. -/
theorem claim_C5_order_independent :
    (∀ d₁ d₂ : Json, d₁ = d₂ →
      is_raining_this_week d₁ = is_raining_this_week d₂) ∧
    (∀ (fs fs' : List (String × Json)) (l l' : List Json) (b : Bool),
      dictLookup fs "list" = some (Json.arr l) →
      dictLookup fs' "list" = some (Json.arr l') →
      l.Perm l' →
      is_raining_this_week (Json.obj fs) = Except.ok b →
      is_raining_this_week (Json.obj fs') = Except.ok b) := by
  constructor
  · intro d₁ d₂ h
    rw [h]
  · intro fs fs' l l' b hfs hfs' hp h
    rw [is_raining_obj_list fs l hfs] at h
    rw [is_raining_obj_list fs' l' hfs']
    rw [classifyEntries_eq_ok_iff] at h ⊢
    obtain ⟨hall, hb⟩ := h
    refine ⟨?_, ?_⟩
    · rw [List.all_eq_true] at hall ⊢
      intro e he
      exact hall e (hp.symm.subset he)
    · rw [hb, hp.countP_eq entryRainy]

theorem claim_C5_witness :
    is_raining_this_week (Json.obj [("list", Json.arr [Json.obj [],
      Json.obj [("rain", Json.obj [("3h", Json.num 2)])]])]) = Except.ok true ∧
    is_raining_this_week (Json.obj [("list", Json.arr [Json.obj [("rain",
      Json.obj [("3h", Json.num 2)])], Json.obj []])]) = Except.ok true :=
  ⟨rfl, claim_C5_order_independent.2
    [("list", Json.arr [Json.obj [], Json.obj [("rain", Json.obj [("3h", Json.num 2)])]])]
    [("list", Json.arr [Json.obj [("rain", Json.obj [("3h", Json.num 2)])], Json.obj []])]
    [Json.obj [], Json.obj [("rain", Json.obj [("3h", Json.num 2)])]]
    [Json.obj [("rain", Json.obj [("3h", Json.num 2)])], Json.obj []]
    true rfl rfl (List.Perm.swap _ _ _) rfl⟩

/-- C4: a non-success (4xx/5xx) HTTP status fails a fetch attempt with
no partial result; the stage is retried up to max_retries = 2
additional times with the fixed retry_delay = 5 seconds slept between
attempts; an error status on all 3 attempts fails the run with no
notifier fired, while a success on the third attempt lets the run
proceed with that third response. -/
theorem claim_C4_retry_policy :
    max_retries = 2 ∧ retry_delay = 5 ∧
    (∀ (c k : String) (r : HttpResponse), 400 ≤ r.status → r.status < 600 →
      (pull_forecast_attempt c k r).2 = Except.error "HTTPError") ∧
    (∀ (s : Option String) (k : String) (att : Nat → HttpResponse),
      (∀ i, i < 3 → 400 ≤ (att i).status ∧ (att i).status < 600) →
      (flow_run s k att).outcome = Except.error "HTTPError" ∧
      (flow_run s k att).fired = [] ∧
      (flow_run s k att).delays = [retry_delay, retry_delay]) ∧
    (∀ (c k : String) (att : Nat → HttpResponse),
      400 ≤ (att 0).status → (att 0).status < 600 →
      400 ≤ (att 1).status → (att 1).status < 600 →
      ¬(400 ≤ (att 2).status ∧ (att 2).status < 600) →
      (pull_forecast c k att).2.2 = Except.ok (att 2).body ∧
      (pull_forecast c k att).2.1 = [retry_delay, retry_delay]) := by
  refine ⟨rfl, rfl, attempt_err, ?_, ?_⟩
  · intro s k att h
    have hp := pull_forecast_all_fail (resolveCity s) k att h
    have hfail : (pull_forecast (resolveCity s) k att).2.2 = Except.error "HTTPError" := by
      rw [hp]
    obtain ⟨h1, h2⟩ := flow_run_fetch_fail s k att _ hfail
    refine ⟨h2, h1, ?_⟩
    rw [flow_run_delays, hp]
  · intro c k att h0a h0b h1a h1b h2
    rw [pull_forecast_third_ok c k att ⟨h0a, h0b⟩ ⟨h1a, h1b⟩ h2]
    exact ⟨rfl, rfl⟩

theorem claim_C4_witness :
    ((flow_run none "KEY" (fun _ => ⟨500, Json.null⟩)).outcome =
        Except.error "HTTPError" ∧
      (flow_run none "KEY" (fun _ => ⟨500, Json.null⟩)).fired = [] ∧
      (flow_run none "KEY" (fun _ => ⟨500, Json.null⟩)).delays =
        [retry_delay, retry_delay]) ∧
    ((pull_forecast "Paris" "KEY"
        (fun i => if i = 2 then ⟨200, Json.obj []⟩ else ⟨500, Json.null⟩)).2.2 =
      Except.ok ((fun i : Nat => if i = 2 then
        (⟨200, Json.obj []⟩ : HttpResponse) else ⟨500, Json.null⟩) 2).body ∧
      (pull_forecast "Paris" "KEY"
        (fun i => if i = 2 then ⟨200, Json.obj []⟩ else ⟨500, Json.null⟩)).2.1 =
      [retry_delay, retry_delay]) :=
  ⟨claim_C4_retry_policy.2.2.2.1 none "KEY" (fun _ => ⟨500, Json.null⟩) (by decide),
   claim_C4_retry_policy.2.2.2.2 "Paris" "KEY"
     (fun i => if i = 2 then ⟨200, Json.obj []⟩ else ⟨500, Json.null⟩)
     (by decide) (by decide) (by decide) (by decide) (by decide)⟩

/-- C6 as stated is false of the code: before the request is issued,
the constructed URL, which embeds the API key as the appid query
parameter, is recorded as a link artifact, so the key is recorded in
an observable output other than the outbound HTTP request itself. -/
theorem claim_C6_counterexample :
    (flow_run (some "Paris") "SECRETKEY"
        (fun _ => ⟨200, Json.obj [("list", Json.arr [])]⟩)).artifacts =
      ["http://api.openweathermap.org/data/2.5/forecast?appid=SECRETKEY&q=Paris"] ∧
    charsContain "SECRETKEY".toList
        "http://api.openweathermap.org/data/2.5/forecast?appid=SECRETKEY&q=Paris".toList
      = true :=
  ⟨rfl, rfl⟩

/-- C6, amended: the API key reaches exactly two observable outputs of
a run, the outbound request URL and the link artifact recorded before
the request (the artifact is that same URL, key included); the
notifications fired, the retry delays and the run outcome do not
depend on the key. -/
theorem claim_C6_amended_key_flow :
    (∀ (s : Option String) (k : String) (att : Nat → HttpResponse),
      (flow_run s k att).artifacts = (flow_run s k att).requests ∧
      ∀ u ∈ (flow_run s k att).artifacts, u = forecastUrl (resolveCity s) k) ∧
    (∀ (s : Option String) (k₁ k₂ : String) (att : Nat → HttpResponse),
      (flow_run s k₁ att).fired = (flow_run s k₂ att).fired ∧
      (flow_run s k₁ att).delays = (flow_run s k₂ att).delays ∧
      (flow_run s k₁ att).outcome = (flow_run s k₂ att).outcome) := by
  constructor
  · intro s k att
    constructor
    · rw [flow_run_artifacts, flow_run_requests]
      apply List.map_congr_left
      intro t ht
      rw [runWithRetries_traces _ _ _ _ _ t ht]
    · intro u hu
      rw [flow_run_artifacts] at hu
      obtain ⟨t, ht, hu⟩ := List.mem_map.mp hu
      rw [← hu, runWithRetries_traces _ _ _ _ _ t ht]
  · intro s k₁ k₂ att
    have hind : (pull_forecast (resolveCity s) k₁ att).2 =
        (pull_forecast (resolveCity s) k₂ att).2 :=
      runWithRetries_result_indep (resolveCity s) k₁ (resolveCity s) k₂ att
        max_retries 0
    have hind2 := congrArg Prod.snd hind
    refine ⟨?_, ?_, ?_⟩
    · rcases hf : (pull_forecast (resolveCity s) k₁ att).2.2 with m | data
      · have hf₂ := hf
        rw [hind2] at hf₂
        simp only [flow_run, hf, hf₂]
      · have hf₂ := hf
        rw [hind2] at hf₂
        rcases hr : is_raining_this_week data with m | rain <;>
          simp only [flow_run, hf, hf₂, hr]
    · rw [flow_run_delays, flow_run_delays, congrArg Prod.fst hind]
    · rcases hf : (pull_forecast (resolveCity s) k₁ att).2.2 with m | data
      · have hf₂ := hf
        rw [hind2] at hf₂
        simp only [flow_run, hf, hf₂]
      · have hf₂ := hf
        rw [hind2] at hf₂
        rcases hr : is_raining_this_week data with m | rain <;>
          simp only [flow_run, hf, hf₂, hr]

theorem claim_C6_witness :
    ((flow_run (some "Paris") "KEY" (fun _ => ⟨500, Json.null⟩)).artifacts =
      (flow_run (some "Paris") "KEY" (fun _ => ⟨500, Json.null⟩)).requests) ∧
    "http://api.openweathermap.org/data/2.5/forecast?appid=KEY&q=Paris" =
      forecastUrl (resolveCity (some "Paris")) "KEY" ∧
    (flow_run (some "Paris") "K1" (fun _ => ⟨500, Json.null⟩)).fired =
      (flow_run (some "Paris") "K2" (fun _ => ⟨500, Json.null⟩)).fired :=
  ⟨(claim_C6_amended_key_flow.1 (some "Paris") "KEY" (fun _ => ⟨500, Json.null⟩)).1,
   (claim_C6_amended_key_flow.1 (some "Paris") "KEY" (fun _ => ⟨500, Json.null⟩)).2
     "http://api.openweathermap.org/data/2.5/forecast?appid=KEY&q=Paris" (by decide),
   (claim_C6_amended_key_flow.2 (some "Paris") "K1" "K2"
     (fun _ => ⟨500, Json.null⟩)).1⟩

/-- C8: for every city and API key (free of the query metacharacter),
the fetch URL lives on the provider's forecast endpoint
`/data/2.5/forecast`, with the key as the appid query parameter and
the city as the q query parameter. -/
theorem claim_C8_url_params (city key : String)
    (hc : '&' ∉ city.toList) (hk : '&' ∉ key.toList) :
    urlPath (forecastUrl city key) =
      "http://api.openweathermap.org/data/2.5/forecast" ∧
    getParam (forecastUrl city key) "appid" = some key ∧
    getParam (forecastUrl city key) "q" = some city :=
  ⟨urlPath_forecastUrl city key, getParam_appid city key hc hk,
    getParam_q city key hc hk⟩

theorem claim_C8_witness :
    urlPath (forecastUrl "San Francisco" "KEY") =
      "http://api.openweathermap.org/data/2.5/forecast" ∧
    getParam (forecastUrl "San Francisco" "KEY") "appid" = some "KEY" ∧
    getParam (forecastUrl "San Francisco" "KEY") "q" = some "San Francisco" :=
  claim_C8_url_params "San Francisco" "KEY" (by decide) (by decide)

/-- C9: when the caller supplies no city, the City parameter resolves
to the default "San Francisco", and every request the run issues uses
the URL built from that default city. -/
theorem claim_C9_default_city (k : String) (att : Nat → HttpResponse) :
    resolveCity none = "San Francisco" ∧
    (flow_run none k att).requests ≠ [] ∧
    ∀ u ∈ (flow_run none k att).requests, u = forecastUrl "San Francisco" k := by
  refine ⟨rfl, ?_, ?_⟩
  · rw [flow_run_requests]
    intro hnil
    exact runWithRetries_traces_nonempty (resolveCity none) k att max_retries 0
      (List.map_eq_nil_iff.mp hnil)
  · intro u hu
    rw [flow_run_requests] at hu
    obtain ⟨t, ht, hu⟩ := List.mem_map.mp hu
    rw [← hu, runWithRetries_traces _ _ _ _ _ t ht]
    rfl

theorem claim_C9_witness :
    resolveCity none = "San Francisco" ∧
    "http://api.openweathermap.org/data/2.5/forecast?appid=KEY&q=San Francisco" =
      forecastUrl "San Francisco" "KEY" :=
  ⟨(claim_C9_default_city "KEY" (fun _ => ⟨500, Json.null⟩)).1,
   (claim_C9_default_city "KEY" (fun _ => ⟨500, Json.null⟩)).2.2
     "http://api.openweathermap.org/data/2.5/forecast?appid=KEY&q=San Francisco"
     (by decide)⟩

/-- C10: the fetch URL is plain concatenation with no percent-encoding:
the characters of the city and key appear verbatim (the city as a
suffix), the default city "San Francisco" puts an unescaped space in
the URL, and a city containing an ampersand or an equals sign changes
the parsed structure of the query string. -/
theorem claim_C10_no_escaping :
    (∀ city key : String, (forecastUrl city key).toList =
      "http://api.openweathermap.org/data/2.5/forecast".toList ++
        '?' :: ("appid".toList ++ '=' ::
          (key.toList ++ '&' :: ('q' :: '=' :: city.toList)))) ∧
    (∀ city key : String, city.toList <:+ (forecastUrl city key).toList) ∧
    (∀ key : String, ' ' ∈ (forecastUrl city_default key).toList) ∧
    queryParams (forecastUrl "Paris&q=Berlin" "KEY") =
      [("appid".toList, "KEY".toList), (['q'], "Paris".toList),
        (['q'], "Berlin".toList)] ∧
    getParam (forecastUrl "Paris&q=Berlin" "KEY") "q" = some "Paris" ∧
    splitOnChar '=' "q=a=b".toList = [['q'], ['a'], ['b']] := by
  refine ⟨forecastUrl_toList, ?_, ?_, by decide, by decide, by decide⟩
  · intro city key
    rw [forecastUrl_toList]
    refine ⟨"http://api.openweathermap.org/data/2.5/forecast".toList ++
      '?' :: ("appid".toList ++ '=' :: (key.toList ++ '&' :: ['q', '='])), ?_⟩
    simp [List.append_assoc]
  · intro key
    rw [forecastUrl_toList]
    refine List.mem_append_right _ (List.mem_cons_of_mem '?'
      (List.mem_append_right _ (List.mem_cons_of_mem '='
        (List.mem_append_right _ (List.mem_cons_of_mem '&'
          (List.mem_cons_of_mem 'q' (List.mem_cons_of_mem '=' ?_)))))))
    decide
